import Mathlib

/- Shallow embedding of the fraud-detection engine in
   src/duplicate_detector.py (class DuplicateDetectorFinal).

   Records are the parsed voter rows.  Face-embedding distances and
   perceptual hashing of photo files are performed by external
   collaborators (face_recognition, imagehash), so the embedding takes
   them as oracle parameters: a distance function over opaque encoding
   ids, and a hashing function from photo paths to optional bit strings
   (a photo that fails to load or hash yields none and is skipped, as
   in the source).  Real arithmetic is embedded in ℚ; Python's
   round(x, n) (round half to even) is embedded as pyRound. -/

/-- Round half to even (Python `round` applied to a real value), to an
integer. -/
def roundHalfEven (x : ℚ) : ℤ :=
  if x - ⌊x⌋ < 1/2 then ⌊x⌋
  else if 1/2 < x - ⌊x⌋ then ⌊x⌋ + 1
  else if ⌊x⌋ % 2 = 0 then ⌊x⌋ else ⌊x⌋ + 1

/-- Python `round(x, ndigits)` for a nonnegative digit count. -/
def pyRound (x : ℚ) (ndigits : ℕ) : ℚ :=
  (roundHalfEven (x * (10 : ℚ) ^ ndigits) : ℚ) / (10 : ℚ) ^ ndigits

/-- One parsed voter row of the CSV consumed by `DuplicateDetectorFinal`.
`none` models a pandas NaN (field not extracted).  `face_encoding` is an
opaque id resolved by the external distance oracle; `face_path` is the
stored photo reference consumed by the external hashing oracle. -/
structure VoterRecord where
  card_id : String
  name : Option String
  father_husband_name : Option String
  age : Option Nat
  gender : Option String
  house_number : Option String
  face_encoding : Option Nat
  face_path : Option String
deriving DecidableEq

/-- Row of `fakes_scenario_1` (fraud_type FAKE_DETAILS). -/
structure FakeDetailsF where
  card_1 : String
  card_2 : String
  name : String
  father_husband : String
  age_1 : String
  age_2 : String
  gender_1 : String
  gender_2 : String
  matching_fields : String
  confidence : String
  likelihood : String
deriving DecidableEq

/-- Row of `fakes_scenario_2` (fraud_type FAKE_FACE). -/
structure FakeFaceF where
  card_1 : String
  card_2 : String
  name_1 : String
  name_2 : String
  father_1 : String
  father_2 : String
  face_similarity_percent : ℚ
  confidence_score : ℚ
  details_evidence : String
  likelihood : String
deriving DecidableEq

/-- Row of `duplicates` (fraud_type DUPLICATE_PHOTO). -/
structure DupPhotoF where
  card_1 : String
  card_2 : String
  name_1 : String
  name_2 : String
  father_1 : String
  father_2 : String
  photo_similarity : ℚ
  hash_difference : ℕ
  likelihood : String
deriving DecidableEq

/-- Row of `anomalies` (fraud_type ADDRESS_ANOMALY). -/
structure AddressAnomalyF where
  house_number : String
  voter_count : ℕ
  unique_names : ℕ
  unique_fathers : ℕ
  risk_level : String
  cards : String
  likelihood : String
deriving DecidableEq

/-- The polymorphic finding collected by `detect_all_frauds`; the
constructor plays the role of the `fraud_type` tag of the source dicts. -/
inductive FraudFinding where
  | details : FakeDetailsF → FraudFinding
  | face : FakeFaceF → FraudFinding
  | photo : DupPhotoF → FraudFinding
  | address : AddressAnomalyF → FraudFinding
deriving DecidableEq

/-- The unordered pair scan `for i in range(n): for j in range(i+1, n)`:
every pair of positions `i < j`, in discovery order. -/
def upperPairs {α : Type} : List α → List (α × α)
  | [] => []
  | x :: xs => xs.map (fun y => (x, y)) ++ upperPairs xs

/-- The string a pandas NaN-able string field prints as in a finding. -/
def orNA (s : Option String) : String := s.getD "N/A"

/-- The string a pandas NaN-able numeric field prints as in a finding. -/
def natOrNA (n : Option Nat) : String := (n.map toString).getD "N/A"

/-- The optional-field rule of scenario 1 (`age`, `gender`): if the field
is present on both records the values must agree (else the pair is
dropped) and the field label is appended to `matching_fields`; a field
absent on either side leaves the accumulated labels unchanged. -/
def optFieldCheck {α : Type} [DecidableEq α]
    (v1 v2 : Option α) (label : String) (mf : List String) :
    Option (List String) :=
  match v1, v2 with
  | some a, some b => if a = b then some (mf ++ [label]) else none
  | _, _ => some mf

/-- Body of the scenario-1 pair loop (`detect_scenario_1_fake_details`,
src/duplicate_detector.py lines 71-125): both `name`s present, both
`father_husband_name`s present, both exactly equal, then the optional
`age` and `gender` checks. -/
def fakeDetailsCheck (r1 r2 : VoterRecord) : Option FakeDetailsF :=
  match r1.name, r2.name, r1.father_husband_name, r2.father_husband_name with
  | some n1, some n2, some f1, some f2 =>
    if n1 = n2 then
      if f1 = f2 then
        match optFieldCheck r1.age r2.age "age" ["name", "father/husband"] with
        | none => none
        | some mf1 =>
          match optFieldCheck r1.gender r2.gender "gender" mf1 with
          | none => none
          | some mf2 =>
            some { card_1 := r1.card_id
                   card_2 := r2.card_id
                   name := n1
                   father_husband := f1
                   age_1 := natOrNA r1.age
                   age_2 := natOrNA r2.age
                   gender_1 := orNA r1.gender
                   gender_2 := orNA r2.gender
                   matching_fields := String.intercalate " + " mf2
                   confidence := "100%"
                   likelihood := "DEFINITE FRAUD" }
      else none
    else none
  | _, _, _, _ => none

/-- Scenario 1: the pair scan over the whole record list. -/
def detect_scenario_1_fake_details (df : List VoterRecord) : List FakeDetailsF :=
  (upperPairs df).filterMap (fun p => fakeDetailsCheck p.1 p.2)

/-- `similarity_percent = (1 - distance) * 100` of scenario 2. -/
def similarity_percent (distance : ℚ) : ℚ := (1 - distance) * 100

/-- Body of the scenario-2 pair loop (src/duplicate_detector.py lines
186-224), given the face distance the external oracle returned for the
two encodings: threshold at 80%, then name evidence adjusts the
confidence score (+5 on differing names, -5 on equal names, unchanged
when either name is absent). -/
def fakeFaceCheck (distance : ℚ) (r1 r2 : VoterRecord) : Option FakeFaceF :=
  if similarity_percent distance < 80 then none
  else
    match r1.name, r2.name with
    | some n1, some n2 =>
      if n1 = n2 then
        some { card_1 := r1.card_id
               card_2 := r2.card_id
               name_1 := n1
               name_2 := n2
               father_1 := orNA r1.father_husband_name
               father_2 := orNA r2.father_husband_name
               face_similarity_percent := pyRound (similarity_percent distance) 2
               confidence_score := pyRound (similarity_percent distance - 5) 1
               details_evidence := "SAME NAME: " ++ n1
               likelihood := "LIKELY FRAUD - SAME PERSON" }
      else
        some { card_1 := r1.card_id
               card_2 := r2.card_id
               name_1 := n1
               name_2 := n2
               father_1 := orNA r1.father_husband_name
               father_2 := orNA r2.father_husband_name
               face_similarity_percent := pyRound (similarity_percent distance) 2
               confidence_score := pyRound (similarity_percent distance + 5) 1
               details_evidence := "DIFFERENT NAMES: " ++ n1 ++ " vs " ++ n2
               likelihood := "🚨 CRITICAL FRAUD - SAME FACE, DIFFERENT NAMES" }
    | _, _ =>
      some { card_1 := r1.card_id
             card_2 := r2.card_id
             name_1 := orNA r1.name
             name_2 := orNA r2.name
             father_1 := orNA r1.father_husband_name
             father_2 := orNA r2.father_husband_name
             face_similarity_percent := pyRound (similarity_percent distance) 2
             confidence_score := pyRound (similarity_percent distance) 1
             details_evidence := "No matching details"
             likelihood := "LIKELY FRAUD - SAME PERSON" }

/-- Scenario 2: filter to the records with a face encoding, bail out on
fewer than two faces, then the pair scan; `distFn` is the external
`face_recognition.face_distance` oracle over encoding ids. -/
def detect_scenario_2_fake_face (distFn : Nat → Nat → ℚ)
    (df : List VoterRecord) : List FakeFaceF :=
  let faces := df.filter (fun r => r.face_encoding.isSome)
  if faces.length < 2 then []
  else
    (upperPairs faces).filterMap (fun p =>
      match p.1.face_encoding, p.2.face_encoding with
      | some e1, some e2 => fakeFaceCheck (distFn e1 e2) p.1 p.2
      | _, _ => none)

/-- Hamming distance between two perceptual hashes (`hash_1 - hash_2` on
imagehash values: the number of differing bits). -/
def hashDiff (h1 h2 : List Bool) : ℕ :=
  (h1.zip h2).countP (fun p => p.1 != p.2)

/-- The tuple `(row.card_id, img_hash, row)` the source appends to
`hashes` for each successfully hashed photo. -/
structure PhotoEntry where
  card_id : String
  img_hash : List Bool
  row : VoterRecord
deriving DecidableEq

/-- Hash one card's photo: apply the external hashing oracle to the
stored `face_path`; `none` (load/hash failure) drops the card from the
comparison list, as in the source's try/except. -/
def hashOne (hashFn : String → Option (List Bool)) (r : VoterRecord) :
    Option PhotoEntry :=
  r.face_path.bind (fun p => (hashFn p).map (fun h => ⟨r.card_id, h, r⟩))

/-- `photo_similarity_percent` of scenario 2B as the source computes it:
`(1 - hash_diff / 64) * 100` (src/duplicate_detector.py line 286). -/
def photo_similarity_percent (hash_diff : ℕ) : ℚ :=
  (1 - (hash_diff : ℚ) / 64) * 100

/-- Body of the scenario-2B pair loop (src/duplicate_detector.py lines
276-305): report a pair with Hamming distance at most 10, classifying
distance at most 5 as the exact-photo case. -/
def photoPairCheck (e1 e2 : PhotoEntry) : Option DupPhotoF :=
  let hash_diff := hashDiff e1.img_hash e2.img_hash
  if hash_diff ≤ 10 then
    some { card_1 := e1.card_id
           card_2 := e2.card_id
           name_1 := orNA e1.row.name
           name_2 := orNA e2.row.name
           father_1 := orNA e1.row.father_husband_name
           father_2 := orNA e2.row.father_husband_name
           photo_similarity := pyRound (photo_similarity_percent hash_diff) 2
           hash_difference := hash_diff
           likelihood :=
             if hash_diff ≤ 5 then "🚨 EXACT SAME PHOTO - DEFINITE FRAUD"
             else "VERY SIMILAR PHOTO - LIKELY FRAUD" }
  else none

/-- Scenario 2B: filter to the records with a stored photo, bail out on
fewer than two, hash each photo through the external oracle (failures
skipped), then the pair scan over the successfully hashed entries. -/
def detect_exact_duplicate_photos (hashFn : String → Option (List Bool))
    (df : List VoterRecord) : List DupPhotoF :=
  let cards_with_faces := df.filter (fun r => r.face_path.isSome)
  if cards_with_faces.length < 2 then []
  else
    let hashes := cards_with_faces.filterMap (hashOne hashFn)
    (upperPairs hashes).filterMap (fun p => photoPairCheck p.1 p.2)

/-- Distinct values of a list, keeping the first occurrence of each (the
grouping keys of the address scan, and pandas `nunique` counting). -/
def firstKeys {α : Type} [DecidableEq α] : List α → List α
  | [] => []
  | x :: xs => x :: (firstKeys xs).filter (fun y => decide (y ≠ x))

/-- The records with a present `house_number` (`df_with_house`). -/
def withHouse (df : List VoterRecord) : List VoterRecord :=
  df.filter (fun r => r.house_number.isSome)

/-- Number of voters recorded at house `hn` (the groupby size). -/
def houseCount (df : List VoterRecord) (hn : String) : ℕ :=
  ((withHouse df).filter (fun r => r.house_number = some hn)).length

/-- The ADDRESS_ANOMALY finding built for one suspicious house number
(src/duplicate_detector.py lines 344-372). -/
def mkAddressAnomaly (df : List VoterRecord) (hn : String) : AddressAnomalyF :=
  let voters_at_address :=
    (withHouse df).filter (fun r => r.house_number = some hn)
  let count := voters_at_address.length
  { house_number := hn
    voter_count := count
    unique_names := (firstKeys (voters_at_address.filterMap (fun r => r.name))).length
    unique_fathers :=
      (firstKeys (voters_at_address.filterMap (fun r => r.father_husband_name))).length
    risk_level :=
      if 50 ≤ count then "CRITICAL" else if 40 ≤ count then "HIGH" else "MEDIUM"
    cards := String.intercalate ", " ((voters_at_address.map (fun r => r.card_id)).take 10) ++ "..."
    likelihood := toString count ++ " voters at one address - Likely fake voter operation" }

/-- Scenario 3 (`detect_address_anomalies`): group the records having a
house number by exact house-number equality and emit one finding per
group of size at least `suspicious_threshold`. -/
def detect_address_anomalies (suspicious_threshold : ℕ)
    (df : List VoterRecord) : List AddressAnomalyF :=
  let dfh := withHouse df
  let keys := firstKeys (dfh.filterMap (fun r => r.house_number))
  (keys.filter (fun hn => decide (suspicious_threshold ≤ houseCount df hn))).map
    (mkAddressAnomaly df)

/-- `detect_all_frauds`: run the four scenarios and concatenate
(`scenario_1 + scenario_2 + scenario_2b + scenario_3`), the address scan
with its default threshold 30. -/
def detect_all_frauds (distFn : Nat → Nat → ℚ)
    (hashFn : String → Option (List Bool))
    (df : List VoterRecord) : List FraudFinding :=
  let scenario_1 := detect_scenario_1_fake_details df
  let scenario_2 := detect_scenario_2_fake_face distFn df
  let scenario_2b := detect_exact_duplicate_photos hashFn df
  let scenario_3 := detect_address_anomalies 30 df
  scenario_1.map FraudFinding.details ++ scenario_2.map FraudFinding.face
    ++ scenario_2b.map FraudFinding.photo ++ scenario_3.map FraudFinding.address

/-- Modelled from the spec: the bit length of the hash the external
hashing collaborator actually produces.  The hashing call is
`imagehash.average_hash(img, hash_size=16)` (src/duplicate_detector.py
line 266); per the spec the collaborator computes a "16×16-block average
hash", a fixed-size bit fingerprint with one bit per block, so the
configured hash carries 16 * 16 = 256 bits. -/
def configured_hash_bit_length : ℕ := 16 * 16

/-- Modelled from the spec: the similarity formula the spec prescribes,
`(1 - distance / hash_bit_length) * 100` with `hash_bit_length` the bit
length of the configured hash. -/
def spec_photo_similarity_percent (hash_diff : ℕ) : ℚ :=
  (1 - (hash_diff : ℚ) / configured_hash_bit_length) * 100

/- ## General lemmas about the unordered pair scan -/

theorem mem_upperPairs {α : Type} {l : List α} {p : α × α} :
    p ∈ upperPairs l ↔ ∃ l1 l2 l3, l = l1 ++ p.1 :: l2 ++ p.2 :: l3 := by
  induction l with
  | nil =>
    constructor
    · intro h; cases h
    · rintro ⟨l1, l2, l3, h⟩
      exact absurd h.symm (by simp)
  | cons x xs ih =>
    constructor
    · intro h
      rcases List.mem_append.mp h with h1 | h2
      · rcases List.mem_map.mp h1 with ⟨y, hy, hxy⟩
        rcases List.append_of_mem hy with ⟨s, t, hst⟩
        exact ⟨[], s, t, by simp [← hxy, hst]⟩
      · rcases ih.mp h2 with ⟨l1, l2, l3, hl⟩
        exact ⟨x :: l1, l2, l3, by simp [hl]⟩
    · rintro ⟨l1, l2, l3, hl⟩
      cases l1 with
      | nil =>
        rw [List.nil_append] at hl
        injection hl with hx hxs
        apply List.mem_append.mpr; left
        apply List.mem_map.mpr
        refine ⟨p.2, ?_, ?_⟩
        · rw [hxs]; exact List.mem_append.mpr (Or.inr (List.mem_cons_self _ _))
        · rw [hx]
      | cons c l1' =>
        rw [List.cons_append] at hl
        injection hl with hx hxs
        exact List.mem_append.mpr (Or.inr (ih.mpr ⟨l1', l2, l3, hxs⟩))

theorem mem_of_mem_upperPairs {α : Type} {l : List α} {p : α × α}
    (h : p ∈ upperPairs l) : p.1 ∈ l ∧ p.2 ∈ l := by
  rcases mem_upperPairs.mp h with ⟨l1, l2, l3, hl⟩
  subst hl
  refine ⟨?_, ?_⟩ <;> simp

/-- Does the ordered pair of keys `c` name the unordered pair `{a, b}`? -/
def cardPairMatch (a b : String) (c : String × String) : Bool :=
  decide (c = (a, b)) || decide (c = (b, a))

/-- Does the scanned pair `p` carry the unordered key pair `{a, b}`? -/
def pairKeyMatch {α : Type} (key : α → String) (a b : String) (p : α × α) : Bool :=
  decide (key p.1 = a ∧ key p.2 = b) || decide (key p.1 = b ∧ key p.2 = a)

theorem countP_keyEq_le_one {α : Type} (key : α → String) {l : List α}
    (hnd : (l.map key).Nodup) (b : String) :
    l.countP (fun y => decide (key y = b)) ≤ 1 := by
  induction l with
  | nil => simp
  | cons x xs ih =>
    simp only [List.map_cons, List.nodup_cons] at hnd
    by_cases hx : key x = b
    · rw [List.countP_cons_of_pos _ _ (by simpa using hx)]
      have hz : xs.countP (fun y => decide (key y = b)) = 0 := by
        rw [List.countP_eq_zero]
        intro y hy
        simp only [decide_eq_true_eq]
        intro hyb
        exact hnd.1 (List.mem_map.mpr ⟨y, hy, hyb.trans hx.symm⟩)
      omega
    · rw [List.countP_cons_of_neg _ _ (by simpa using hx)]
      exact ih hnd.2

theorem countP_upperPairs_le_one {α : Type} (key : α → String) {l : List α}
    (hnd : (l.map key).Nodup) (a b : String) :
    (upperPairs l).countP (pairKeyMatch key a b) ≤ 1 := by
  induction l with
  | nil => simp [upperPairs]
  | cons x xs ih =>
    simp only [List.map_cons, List.nodup_cons] at hnd
    rw [upperPairs, List.countP_append]
    by_cases hxa : key x = a
    · have h2 : (upperPairs xs).countP (pairKeyMatch key a b) = 0 := by
        rw [List.countP_eq_zero]
        intro p hp
        have hmem := mem_of_mem_upperPairs hp
        simp only [pairKeyMatch, Bool.or_eq_true, decide_eq_true_eq, not_or]
        constructor
        · rintro ⟨h1, _⟩
          exact hnd.1 (List.mem_map.mpr ⟨p.1, hmem.1, h1.trans hxa.symm⟩)
        · rintro ⟨_, h2'⟩
          exact hnd.1 (List.mem_map.mpr ⟨p.2, hmem.2, h2'.trans hxa.symm⟩)
      have h1 : (xs.map (fun y => (x, y))).countP (pairKeyMatch key a b) ≤ 1 := by
        rw [List.countP_map]
        refine le_trans (List.countP_mono_left (q := fun y => decide (key y = b)) ?_)
          (countP_keyEq_le_one key hnd.2 b)
        intro y hy
        simp only [Function.comp, pairKeyMatch, Bool.or_eq_true, decide_eq_true_eq]
        rintro (⟨_, hb⟩ | ⟨_, ha⟩)
        · exact hb
        · exact absurd (List.mem_map.mpr ⟨y, hy, ha.trans hxa.symm⟩) hnd.1
      omega
    · by_cases hxb : key x = b
      · have h2 : (upperPairs xs).countP (pairKeyMatch key a b) = 0 := by
          rw [List.countP_eq_zero]
          intro p hp
          have hmem := mem_of_mem_upperPairs hp
          simp only [pairKeyMatch, Bool.or_eq_true, decide_eq_true_eq, not_or]
          constructor
          · rintro ⟨_, h2'⟩
            exact hnd.1 (List.mem_map.mpr ⟨p.2, hmem.2, h2'.trans hxb.symm⟩)
          · rintro ⟨h1, _⟩
            exact hnd.1 (List.mem_map.mpr ⟨p.1, hmem.1, h1.trans hxb.symm⟩)
        have h1 : (xs.map (fun y => (x, y))).countP (pairKeyMatch key a b) ≤ 1 := by
          rw [List.countP_map]
          refine le_trans (List.countP_mono_left (q := fun y => decide (key y = a)) ?_)
            (countP_keyEq_le_one key hnd.2 a)
          intro y hy
          simp only [Function.comp, pairKeyMatch, Bool.or_eq_true, decide_eq_true_eq]
          rintro (⟨ha, _⟩ | ⟨_, ha⟩)
          · exact absurd ha hxa
          · exact ha
        omega
      · have h1 : (xs.map (fun y => (x, y))).countP (pairKeyMatch key a b) = 0 := by
          rw [List.countP_eq_zero]
          intro p hp
          simp only [pairKeyMatch, Bool.or_eq_true, decide_eq_true_eq, not_or]
          rcases List.mem_map.mp hp with ⟨y, _, hxy⟩
          constructor
          · rintro ⟨h1', _⟩
            rw [← hxy] at h1'
            exact hxa h1'
          · rintro ⟨h1', _⟩
            rw [← hxy] at h1'
            exact hxb h1'
        have h2 := ih hnd.2
        omega

theorem countP_filterMap_list {α β : Type} (g : α → Option β) (q : β → Bool)
    (l : List α) :
    (l.filterMap g).countP q = l.countP (fun x => ((g x).map q).getD false) := by
  induction l with
  | nil => simp
  | cons x xs ih =>
    cases hg : g x with
    | none => simp [List.filterMap_cons, hg, List.countP_cons, ih]
    | some b => simp [List.filterMap_cons, hg, List.countP_cons, ih]

theorem scan_count_le_one {α β : Type} (key : α → String)
    (cards : β → String × String) (check : α → α → Option β) {l : List α}
    (hnd : (l.map key).Nodup)
    (hc : ∀ x y f, check x y = some f → cards f = (key x, key y))
    (a b : String) :
    ((upperPairs l).filterMap (fun p => check p.1 p.2)).countP
      (fun f => cardPairMatch a b (cards f)) ≤ 1 := by
  rw [countP_filterMap_list]
  refine le_trans (List.countP_mono_left ?_) (countP_upperPairs_le_one key hnd a b)
  intro p _ hq
  cases hck : check p.1 p.2 with
  | none => rw [hck] at hq; simp at hq
  | some f =>
    rw [hck] at hq
    simp only [Option.map_some', Option.getD_some] at hq
    rw [hc p.1 p.2 f hck] at hq
    simp only [cardPairMatch, pairKeyMatch, Bool.or_eq_true, decide_eq_true_eq,
      Prod.mk.injEq] at hq ⊢
    exact hq

theorem scan_mem_decomp {α β : Type} (check : α → α → Option β) {l : List α}
    {f : β} (hf : f ∈ (upperPairs l).filterMap (fun p => check p.1 p.2)) :
    ∃ x y l1 l2 l3, l = l1 ++ x :: l2 ++ y :: l3 ∧ check x y = some f := by
  rcases List.mem_filterMap.mp hf with ⟨p, hp, hck⟩
  rcases mem_upperPairs.mp hp with ⟨l1, l2, l3, hl⟩
  exact ⟨p.1, p.2, l1, l2, l3, hl, hck⟩

theorem map_filterMap_sublist {α β : Type} (g : α → Option β) (k : β → String)
    (k' : α → String) (l : List α) (h : ∀ x e, g x = some e → k e = k' x) :
    ((l.filterMap g).map k).Sublist (l.map k') := by
  induction l with
  | nil => simp
  | cons x xs ih =>
    cases hg : g x with
    | none =>
      simp only [List.filterMap_cons, hg, List.map_cons]
      exact ih.cons _
    | some e =>
      simp only [List.filterMap_cons, hg, List.map_cons, h x e hg]
      exact ih.cons₂ _

/- ## C1: the exact-detail matcher's emission rule -/

set_option maxHeartbeats 3200000 in
/-- C1: for every pair of records, the exact-detail matcher emits a
FAKE_DETAILS finding iff name and father/husband name are present on
both records and exactly equal, and each of age and gender agrees
whenever present on both; the finding's matching_fields lists exactly
the fields present on both sides (which then necessarily matched), and
confidence is fixed at "100%". -/
theorem C1_exact_detail_rule (r1 r2 : VoterRecord) :
    ((fakeDetailsCheck r1 r2).isSome = true ↔
      ((∃ n, r1.name = some n ∧ r2.name = some n) ∧
       (∃ fh, r1.father_husband_name = some fh ∧
          r2.father_husband_name = some fh) ∧
       (∀ a1 a2, r1.age = some a1 → r2.age = some a2 → a1 = a2) ∧
       (∀ g1 g2, r1.gender = some g1 → r2.gender = some g2 → g1 = g2))) ∧
    (∀ fd, fakeDetailsCheck r1 r2 = some fd →
      fd.matching_fields =
        String.intercalate " + "
          (["name", "father/husband"]
            ++ (if r1.age.isSome ∧ r2.age.isSome then ["age"] else [])
            ++ (if r1.gender.isSome ∧ r2.gender.isSome then ["gender"] else []))
        ∧ fd.confidence = "100%") := by
  rcases hn1 : r1.name with _ | n1 <;>
  rcases hn2 : r2.name with _ | n2 <;>
  rcases hf1 : r1.father_husband_name with _ | f1 <;>
  rcases hf2 : r2.father_husband_name with _ | f2 <;>
  rcases ha1 : r1.age with _ | a1 <;>
  rcases ha2 : r2.age with _ | a2 <;>
  rcases hg1 : r1.gender with _ | g1 <;>
  rcases hg2 : r2.gender with _ | g2 <;>
  simp only [fakeDetailsCheck, optFieldCheck, hn1, hn2, hf1, hf2, ha1, ha2,
    hg1, hg2] <;>
  split_ifs <;>
  simp_all <;>
  aesop

/- ## Face matcher branch lemmas (shared) -/

theorem fakeFaceCheck_diff_names {d : ℚ} {r1 r2 : VoterRecord} {f : FakeFaceF}
    (hf : fakeFaceCheck d r1 r2 = some f) {n1 n2 : String}
    (h1 : r1.name = some n1) (h2 : r2.name = some n2) (hne : n1 ≠ n2) :
    f.confidence_score = pyRound (similarity_percent d + 5) 1 ∧
    f.likelihood = "🚨 CRITICAL FRAUD - SAME FACE, DIFFERENT NAMES" := by
  unfold fakeFaceCheck at hf
  split_ifs at hf
  simp only [h1, h2] at hf
  rw [if_neg hne] at hf
  obtain rfl := Option.some.inj hf
  exact ⟨rfl, rfl⟩

theorem fakeFaceCheck_same_name {d : ℚ} {r1 r2 : VoterRecord} {f : FakeFaceF}
    (hf : fakeFaceCheck d r1 r2 = some f) {n : String}
    (h1 : r1.name = some n) (h2 : r2.name = some n) :
    f.confidence_score = pyRound (similarity_percent d - 5) 1 ∧
    f.likelihood = "LIKELY FRAUD - SAME PERSON" := by
  unfold fakeFaceCheck at hf
  split_ifs at hf
  simp only [h1, h2] at hf
  rw [if_pos trivial] at hf
  obtain rfl := Option.some.inj hf
  exact ⟨rfl, rfl⟩

theorem fakeFaceCheck_absent_name {d : ℚ} {r1 r2 : VoterRecord} {f : FakeFaceF}
    (hf : fakeFaceCheck d r1 r2 = some f)
    (hn : r1.name = none ∨ r2.name = none) :
    f.confidence_score = pyRound (similarity_percent d) 1 ∧
    f.likelihood = "LIKELY FRAUD - SAME PERSON" := by
  unfold fakeFaceCheck at hf
  split_ifs at hf
  rcases hn1 : r1.name with _ | n1 <;> rcases hn2 : r2.name with _ | n2 <;>
    simp only [hn1, hn2] at hf
  · obtain rfl := Option.some.inj hf; exact ⟨rfl, rfl⟩
  · obtain rfl := Option.some.inj hf; exact ⟨rfl, rfl⟩
  · obtain rfl := Option.some.inj hf; exact ⟨rfl, rfl⟩
  · rcases hn with hn | hn
    · rw [hn1] at hn; cases hn
    · rw [hn2] at hn; cases hn

/- ## C4: the face matcher's acceptance threshold -/

/-- C4: for every pair of records with present face encodings the
matcher computes `similarity_percent = (1 - distance) * 100` and emits a
FAKE_FACE finding iff that similarity is at least 80 percent; the
boundary 80.0 is included and anything strictly below is excluded. -/
theorem C4_face_threshold (d : ℚ) (r1 r2 : VoterRecord) :
    (fakeFaceCheck d r1 r2).isSome = true ↔ 80 ≤ similarity_percent d := by
  by_cases h : similarity_percent d < 80
  · simp only [fakeFaceCheck, if_pos h, Option.isSome_none, Bool.false_eq_true,
      false_iff, not_le]
    exact h
  · rw [not_lt] at h
    simp only [fakeFaceCheck, if_neg (not_lt.mpr h)]
    rcases hn1 : r1.name with _ | n1 <;> rcases hn2 : r2.name with _ | n2 <;>
      simp only [] <;> (try split_ifs) <;> simp [h]

/-- Records used to exercise the face matcher at concrete inputs. -/
def faceRecA : VoterRecord := ⟨"F1", some "A", none, none, none, none, some 0, none⟩

/-- Second record used to exercise the face matcher. -/
def faceRecB : VoterRecord := ⟨"F2", some "B", none, none, none, none, some 1, none⟩

/-- C4 witness: distance 0.2 gives similarity exactly 80.0 and is
accepted; distance 0.2001 gives 79.99 and is rejected. -/
theorem C4_face_threshold_witness :
    (fakeFaceCheck (1/5) faceRecA faceRecB).isSome = true ∧
    (fakeFaceCheck (2001/10000) faceRecA faceRecB).isSome = false := by
  constructor
  · exact (C4_face_threshold (1/5) faceRecA faceRecB).mpr
      (by norm_num [similarity_percent])
  · by_contra hb
    simp only [Bool.not_eq_false] at hb
    have h := (C4_face_threshold (2001/10000) faceRecA faceRecB).mp hb
    norm_num [similarity_percent] at h

/- ## C3 and C10: evidence scoring of the face matcher -/

/-- C3 (amended): for every accepted pair, the emitted confidence score
is the name-evidence-adjusted similarity rounded half-to-even to one
decimal place (the source stores `round(confidence_score, 1)`): +5 when
both names are present and differ (CRITICAL classification), -5 when
both present and equal (LIKELY classification), unchanged when either
name is absent (LIKELY); at similarity exactly 85 the stated instances
90.0 and 80.0 hold exactly. -/
theorem C3_confidence_rule (d : ℚ) (r1 r2 : VoterRecord) (f : FakeFaceF)
    (hf : fakeFaceCheck d r1 r2 = some f) :
    ((∃ n1 n2, r1.name = some n1 ∧ r2.name = some n2 ∧ n1 ≠ n2) →
      f.confidence_score = pyRound (similarity_percent d + 5) 1 ∧
      f.likelihood = "🚨 CRITICAL FRAUD - SAME FACE, DIFFERENT NAMES") ∧
    ((∃ n, r1.name = some n ∧ r2.name = some n) →
      f.confidence_score = pyRound (similarity_percent d - 5) 1 ∧
      f.likelihood = "LIKELY FRAUD - SAME PERSON") ∧
    ((r1.name = none ∨ r2.name = none) →
      f.confidence_score = pyRound (similarity_percent d) 1 ∧
      f.likelihood = "LIKELY FRAUD - SAME PERSON") ∧
    (similarity_percent d = 85 →
      ((∃ n1 n2, r1.name = some n1 ∧ r2.name = some n2 ∧ n1 ≠ n2) →
        f.confidence_score = 90) ∧
      ((∃ n, r1.name = some n ∧ r2.name = some n) →
        f.confidence_score = 80)) := by
  refine ⟨?_, ?_, ?_, ?_⟩
  · rintro ⟨n1, n2, h1, h2, hne⟩
    exact fakeFaceCheck_diff_names hf h1 h2 hne
  · rintro ⟨n, h1, h2⟩
    exact fakeFaceCheck_same_name hf h1 h2
  · intro hn
    exact fakeFaceCheck_absent_name hf hn
  · intro hs
    constructor
    · rintro ⟨n1, n2, h1, h2, hne⟩
      rw [(fakeFaceCheck_diff_names hf h1 h2 hne).1, hs]
      norm_num [pyRound, roundHalfEven]
    · rintro ⟨n, h1, h2⟩
      rw [(fakeFaceCheck_same_name hf h1 h2).1, hs]
      norm_num [pyRound, roundHalfEven]

/-- C3 counterexample: at distance 0.1233 (similarity 87.67, names
differing) the emitted confidence score is 92.7, not the claimed
`similarity_percent + 5 = 92.67`: the source rounds to one decimal. -/
theorem C3_counterexample :
    (fakeFaceCheck (1233/10000) faceRecA faceRecB).map
        (fun f => f.confidence_score) = some (927/10) ∧
    similarity_percent (1233/10000) + 5 = 9267/100 ∧
    (927/10 : ℚ) ≠ 9267/100 := by
  refine ⟨?_, by norm_num [similarity_percent], by norm_num⟩
  norm_num [fakeFaceCheck, faceRecA, faceRecB, similarity_percent, pyRound,
    roundHalfEven, orNA]
  rw [if_neg (by decide : ¬ ("A" : String) = "B")]
  exact ⟨_, rfl, rfl⟩

/-- The FAKE_FACE finding the matcher emits at distance 0.15 for the
two concrete records with differing names. -/
def c3wF : FakeFaceF :=
  ⟨"F1", "F2", "A", "B", "N/A", "N/A", 85, 90, "DIFFERENT NAMES: A vs B",
    "🚨 CRITICAL FRAUD - SAME FACE, DIFFERENT NAMES"⟩

/-- C3 witness: similarity exactly 85 with differing names yields
confidence score exactly 90. -/
theorem C3_confidence_rule_witness :
    fakeFaceCheck (3/20) faceRecA faceRecB = some c3wF ∧
    c3wF.confidence_score = 90 := by
  have hf : fakeFaceCheck (3/20) faceRecA faceRecB = some c3wF := by
    norm_num [fakeFaceCheck, faceRecA, faceRecB, similarity_percent, pyRound,
      roundHalfEven, orNA, c3wF]
    rw [if_neg (by decide : ¬ ("A" : String) = "B")]
    rfl
  refine ⟨hf, ?_⟩
  exact ((C3_confidence_rule (3/20) faceRecA faceRecB c3wF hf).2.2.2
    (by norm_num [similarity_percent])).1 ⟨"A", "B", rfl, rfl, by decide⟩

theorem roundHalfEven_lower (b : ℤ) (x : ℚ) (h : (b : ℚ) + 1/2 < x) :
    b + 1 ≤ roundHalfEven x := by
  have hfl : (⌊x⌋ : ℚ) ≤ x := Int.floor_le x
  have hlt : x < ⌊x⌋ + 1 := Int.lt_floor_add_one x
  unfold roundHalfEven
  split_ifs with h1 h2 h3
  · have hb : (b : ℚ) < (⌊x⌋ : ℚ) := by linarith
    exact Int.add_one_le_iff.mpr (by exact_mod_cast hb)
  · have hb : (b : ℚ) < (⌊x⌋ : ℚ) + 1 := by linarith
    have hb2 : b < ⌊x⌋ + 1 := by exact_mod_cast hb
    omega
  · have hx2 : x - ⌊x⌋ = 1/2 := by linarith
    have hb : (b : ℚ) < (⌊x⌋ : ℚ) := by linarith
    exact Int.add_one_le_iff.mpr (by exact_mod_cast hb)
  · have hx2 : x - ⌊x⌋ = 1/2 := by linarith
    have hb : (b : ℚ) < (⌊x⌋ : ℚ) := by linarith
    have hb2 : b < ⌊x⌋ := by exact_mod_cast hb
    omega

/-- C10 (amended): the stored confidence score is not clamped to 100:
it equals `round(similarity_percent + 5, 1)`, and for every accepted
pair with differing present names and similarity above 95.05 it
strictly exceeds 100 (at similarity in (95, 95.05] the one-decimal
rounding can bring the stored value back to exactly 100.0). -/
theorem C10_confidence_not_clamped (d : ℚ) (r1 r2 : VoterRecord)
    (f : FakeFaceF) (hf : fakeFaceCheck d r1 r2 = some f)
    (hn : ∃ n1 n2, r1.name = some n1 ∧ r2.name = some n2 ∧ n1 ≠ n2)
    (hs : 9505/100 < similarity_percent d) :
    f.confidence_score = pyRound (similarity_percent d + 5) 1 ∧
    100 < f.confidence_score := by
  obtain ⟨n1, n2, h1, h2, hne⟩ := hn
  obtain ⟨hconf, -⟩ := fakeFaceCheck_diff_names hf h1 h2 hne
  refine ⟨hconf, ?_⟩
  rw [hconf]
  unfold pyRound
  have hge : (1000 : ℤ) + 1 ≤
      roundHalfEven ((similarity_percent d + 5) * (10 : ℚ) ^ 1) := by
    apply roundHalfEven_lower
    push_cast
    norm_num
    linarith
  have hc : (1001 : ℚ) ≤
      (roundHalfEven ((similarity_percent d + 5) * (10 : ℚ) ^ 1) : ℚ) := by
    exact_mod_cast hge
  have h10 : ((10 : ℚ) ^ (1 : ℕ)) = 10 := by norm_num
  rw [h10] at hc ⊢
  linarith

/-- C10 counterexample: at similarity 95.04 (distance 0.0496, names
differing) the emitted confidence score is exactly 100.0 — it neither
equals `similarity_percent + 5 = 100.04` nor exceeds 100. -/
theorem C10_counterexample :
    95 < similarity_percent (31/625) ∧
    (fakeFaceCheck (31/625) faceRecA faceRecB).map
        (fun f => f.confidence_score) = some 100 ∧
    similarity_percent (31/625) + 5 ≠ 100 := by
  refine ⟨by norm_num [similarity_percent], ?_,
    by norm_num [similarity_percent]⟩
  norm_num [fakeFaceCheck, faceRecA, faceRecB, similarity_percent, pyRound,
    roundHalfEven, orNA]
  rw [if_neg (by decide : ¬ ("A" : String) = "B")]
  exact ⟨_, rfl, rfl⟩

/-- The FAKE_FACE finding the matcher emits at distance 0.04 for the
two concrete records with differing names. -/
def c10wF : FakeFaceF :=
  ⟨"F1", "F2", "A", "B", "N/A", "N/A", 96, 101, "DIFFERENT NAMES: A vs B",
    "🚨 CRITICAL FRAUD - SAME FACE, DIFFERENT NAMES"⟩

/-- C10 witness: similarity 96 with differing names stores confidence
101, exceeding 100. -/
theorem C10_confidence_not_clamped_witness :
    fakeFaceCheck (1/25) faceRecA faceRecB = some c10wF ∧
    100 < c10wF.confidence_score := by
  have hf : fakeFaceCheck (1/25) faceRecA faceRecB = some c10wF := by
    norm_num [fakeFaceCheck, faceRecA, faceRecB, similarity_percent, pyRound,
      roundHalfEven, orNA, c10wF]
    rw [if_neg (by decide : ¬ ("A" : String) = "B")]
    rfl
  exact ⟨hf, (C10_confidence_not_clamped (1/25) faceRecA faceRecB c10wF hf
    ⟨"A", "B", rfl, rfl, by decide⟩ (by norm_num [similarity_percent])).2⟩

/-- Record exercising scenario 1: name A, father F, age 30. -/
def c1wA : VoterRecord := ⟨"W1", some "A", some "F", some 30, none, none, none, none⟩

/-- Record matching c1wA with age absent and gender present. -/
def c1wB : VoterRecord := ⟨"W2", some "A", some "F", none, some "M", none, none, none⟩

/-- Record matching c1wA except for a differing present age. -/
def c1wC : VoterRecord := ⟨"W3", some "A", some "F", some 31, none, none, none, none⟩

/-- C1 witness: same name and father with age absent on one side is
emitted; the same pair with age present on both sides and different is
not. -/
theorem C1_exact_detail_rule_witness :
    (fakeDetailsCheck c1wA c1wB).isSome = true ∧
    (fakeDetailsCheck c1wA c1wC).isSome = false := by
  constructor
  · exact (C1_exact_detail_rule c1wA c1wB).1.mpr
      ⟨⟨"A", rfl, rfl⟩, ⟨"F", rfl, rfl⟩, by simp [c1wA, c1wB], by simp [c1wA, c1wB]⟩
  · by_contra hb
    simp only [Bool.not_eq_false] at hb
    rcases (C1_exact_detail_rule c1wA c1wC).1.mp hb with ⟨-, -, hage, -⟩
    have h := hage 30 31 rfl rfl
    omega

/- ## C6: the photo-hash step function -/

/-- C6: for every pair of successfully hashed photos, Hamming distance
at most 5 yields the EXACT SAME PHOTO classification, distance in (5,10]
yields VERY SIMILAR PHOTO, and distance above 10 yields no finding. -/
theorem C6_photo_hash_step (e1 e2 : PhotoEntry) :
    (hashDiff e1.img_hash e2.img_hash ≤ 5 →
      ∃ f, photoPairCheck e1 e2 = some f ∧
        f.likelihood = "🚨 EXACT SAME PHOTO - DEFINITE FRAUD") ∧
    (5 < hashDiff e1.img_hash e2.img_hash →
      hashDiff e1.img_hash e2.img_hash ≤ 10 →
      ∃ f, photoPairCheck e1 e2 = some f ∧
        f.likelihood = "VERY SIMILAR PHOTO - LIKELY FRAUD") ∧
    (10 < hashDiff e1.img_hash e2.img_hash → photoPairCheck e1 e2 = none) := by
  simp only [photoPairCheck]
  split_ifs with h10 h5
  · refine ⟨fun _ => ⟨_, rfl, rfl⟩, fun hlt _ => ?_, fun hlt => ?_⟩ <;> omega
  · refine ⟨fun hle => ?_, fun _ _ => ⟨_, rfl, rfl⟩, fun hlt => ?_⟩ <;> omega
  · refine ⟨fun hle => ?_, fun _ hle => ?_, fun _ => rfl⟩ <;> omega

/-- Hashed photo entry at Hamming distance 5 from `c6e2`. -/
def c6e1 : PhotoEntry :=
  ⟨"P1", List.replicate 5 true, ⟨"P1", none, none, none, none, none, none, some "p1"⟩⟩

/-- Hashed photo entry at Hamming distance 5 from `c6e1`. -/
def c6e2 : PhotoEntry :=
  ⟨"P2", List.replicate 5 false, ⟨"P2", none, none, none, none, none, none, some "p2"⟩⟩

/-- Hashed photo entry at Hamming distance 6 from `c6e4`. -/
def c6e3 : PhotoEntry :=
  ⟨"P3", List.replicate 6 true, ⟨"P3", none, none, none, none, none, none, some "p3"⟩⟩

/-- Hashed photo entry at Hamming distance 6 from `c6e3`. -/
def c6e4 : PhotoEntry :=
  ⟨"P4", List.replicate 6 false, ⟨"P4", none, none, none, none, none, none, some "p4"⟩⟩

/-- Hashed photo entry at Hamming distance 11 from `c6e6`. -/
def c6e5 : PhotoEntry :=
  ⟨"P5", List.replicate 11 true, ⟨"P5", none, none, none, none, none, none, some "p5"⟩⟩

/-- Hashed photo entry at Hamming distance 11 from `c6e5`. -/
def c6e6 : PhotoEntry :=
  ⟨"P6", List.replicate 11 false, ⟨"P6", none, none, none, none, none, none, some "p6"⟩⟩

/-- C6 witness: distance exactly 5 classifies EXACT, 6 classifies VERY
SIMILAR, 11 is excluded. -/
theorem C6_photo_hash_step_witness :
    (∃ f, photoPairCheck c6e1 c6e2 = some f ∧
      f.likelihood = "🚨 EXACT SAME PHOTO - DEFINITE FRAUD") ∧
    (∃ f, photoPairCheck c6e3 c6e4 = some f ∧
      f.likelihood = "VERY SIMILAR PHOTO - LIKELY FRAUD") ∧
    photoPairCheck c6e5 c6e6 = none :=
  ⟨(C6_photo_hash_step c6e1 c6e2).1 (by decide),
   (C6_photo_hash_step c6e3 c6e4).2.1 (by decide) (by decide),
   (C6_photo_hash_step c6e5 c6e6).2.2 (by decide)⟩

/- ## C5: the photo-similarity divisor -/

/-- C5: the source divides the Hamming distance by the constant 64
(`photo_similarity_percent`), but the configured hash
(`average_hash(img, hash_size=16)`, a 16×16-block hash) carries 256
bits, so although distance 0 still gives 100%, the percentage does not
scale with the true number of hash bits: at distance 8 the source
reports 87.5% where the true-bit-length formula gives 96.875%. -/
theorem C5_hash_divisor_mismatch :
    photo_similarity_percent 0 = 100 ∧
    photo_similarity_percent 8 = 175/2 ∧
    spec_photo_similarity_percent 8 = 775/8 ∧
    photo_similarity_percent 8 ≠ spec_photo_similarity_percent 8 ∧
    (64 : ℕ) ≠ configured_hash_bit_length := by
  refine ⟨?_, ?_, ?_, ?_, ?_⟩ <;>
    norm_num [photo_similarity_percent, spec_photo_similarity_percent,
      configured_hash_bit_length]

/- ## C7: the address-anomaly detector -/

theorem mem_firstKeys {α : Type} [DecidableEq α] {a : α} {l : List α} :
    a ∈ firstKeys l ↔ a ∈ l := by
  induction l with
  | nil => simp [firstKeys]
  | cons x xs ih =>
    simp only [firstKeys, List.mem_cons, List.mem_filter]
    constructor
    · rintro (rfl | ⟨h, -⟩)
      · exact Or.inl rfl
      · exact Or.inr (ih.mp h)
    · rintro (rfl | h)
      · exact Or.inl rfl
      · by_cases hax : a = x
        · exact Or.inl hax
        · exact Or.inr ⟨ih.mpr h, by simpa using hax⟩

theorem nodup_firstKeys {α : Type} [DecidableEq α] (l : List α) :
    (firstKeys l).Nodup := by
  induction l with
  | nil => simp [firstKeys]
  | cons x xs ih =>
    simp only [firstKeys, List.nodup_cons]
    constructor
    · intro hx
      rcases List.mem_filter.mp hx with ⟨-, hne⟩
      simp at hne
    · exact ih.filter _

/-- C7: the address scan over house-number groups emits a finding for
house `h` iff at least 30 records carry that house number; it emits at
most one finding per house; and every emitted finding reports the
group size and the step-function risk level (50+ CRITICAL, 40+ HIGH,
else MEDIUM, the emission bound 30 guaranteeing MEDIUM's lower edge). -/
theorem C7_address_anomaly_rule (df : List VoterRecord) (h : String) :
    ((∃ f ∈ detect_address_anomalies 30 df, f.house_number = h) ↔
      30 ≤ houseCount df h) ∧
    (detect_address_anomalies 30 df).countP
      (fun f => decide (f.house_number = h)) ≤ 1 ∧
    (∀ f ∈ detect_address_anomalies 30 df,
      f.voter_count = houseCount df f.house_number ∧
      30 ≤ houseCount df f.house_number ∧
      f.risk_level =
        (if 50 ≤ houseCount df f.house_number then "CRITICAL"
         else if 40 ≤ houseCount df f.house_number then "HIGH"
         else "MEDIUM")) := by
  refine ⟨⟨?_, ?_⟩, ?_, ?_⟩
  · rintro ⟨f, hf, hfh⟩
    simp only [detect_address_anomalies] at hf
    rcases List.mem_map.mp hf with ⟨hn, hmem, rfl⟩
    rcases List.mem_filter.mp hmem with ⟨-, hcnt⟩
    have hhn : hn = h := hfh
    subst hhn
    simpa using hcnt
  · intro h30
    have hpos : 0 < houseCount df h := by omega
    rw [houseCount] at hpos
    rcases List.exists_mem_of_length_pos hpos with ⟨r, hr⟩
    rcases List.mem_filter.mp hr with ⟨hrw, hrh⟩
    have hrh' : r.house_number = some h := by simpa using hrh
    have hkey :
        h ∈ firstKeys ((withHouse df).filterMap (fun r => r.house_number)) := by
      rw [mem_firstKeys]
      exact List.mem_filterMap.mpr ⟨r, hrw, hrh'⟩
    refine ⟨mkAddressAnomaly df h, ?_, rfl⟩
    simp only [detect_address_anomalies]
    exact List.mem_map.mpr
      ⟨h, List.mem_filter.mpr ⟨hkey, by simpa using h30⟩, rfl⟩
  · simp only [detect_address_anomalies]
    rw [List.countP_map]
    have hnd2 :=
      (nodup_firstKeys ((withHouse df).filterMap (fun r => r.house_number))).filter
        (fun hn => decide (30 ≤ houseCount df hn))
    exact countP_keyEq_le_one (fun s => s) (by simpa using hnd2) h
  · intro f hf
    simp only [detect_address_anomalies] at hf
    rcases List.mem_map.mp hf with ⟨hn, hmem, rfl⟩
    rcases List.mem_filter.mp hmem with ⟨-, hcnt⟩
    exact ⟨rfl, by simpa using hcnt, rfl⟩

/-- A voter record registered at house H. -/
def c7rec : VoterRecord := ⟨"A1", none, none, none, none, some "H", none, none⟩

/-- C7 witness: thirty records at one house are reported, twenty-nine
are not. -/
theorem C7_address_anomaly_rule_witness :
    (∃ f ∈ detect_address_anomalies 30 (List.replicate 30 c7rec),
      f.house_number = "H") ∧
    ¬ (∃ f ∈ detect_address_anomalies 30 (List.replicate 29 c7rec),
      f.house_number = "H") := by
  constructor
  · exact (C7_address_anomaly_rule (List.replicate 30 c7rec) "H").1.mpr
      (by decide)
  · intro hex
    have h30 :=
      (C7_address_anomaly_rule (List.replicate 29 c7rec) "H").1.mp hex
    have h29 : houseCount (List.replicate 29 c7rec) "H" = 29 := by decide
    omega

/- ## C2: no structural input validation in detect_all_frauds -/

/-- A record with duplicated-looking identity fields and no house,
face or photo data. -/
def c2rec : VoterRecord := ⟨"X", some "A", some "F", none, none, none, none, none⟩

/-- C2 counterexample: `detect_all_frauds` never raises a run-level
error: on a single-record set it completes and returns the empty
finding list, and on a set with a duplicated card_id it completes and
returns an ordinary finding list (even pairing card X with itself). -/
theorem C2_counterexample :
    detect_all_frauds (fun _ _ => 1) (fun _ => none) [c2rec] = [] ∧
    detect_all_frauds (fun _ _ => 1) (fun _ => none) [c2rec, c2rec] =
      [FraudFinding.details
        ⟨"X", "X", "A", "F", "N/A", "N/A", "N/A", "N/A",
          "name + father/husband", "100%", "DEFINITE FRAUD"⟩] := by
  constructor <;> rfl

/-- C2 (amended): the engine performs no structural validation: on any
record set with fewer than two records every scenario is vacuous and
`detect_all_frauds` completes normally with the empty finding list (the
degenerate "no fraud"-looking output), and no run-level error exists for
duplicate card_id values either (see the counterexample). -/
theorem C2_no_structural_validation (distFn : Nat → Nat → ℚ)
    (hashFn : String → Option (List Bool)) (df : List VoterRecord)
    (hlen : df.length < 2) :
    detect_all_frauds distFn hashFn df = [] := by
  have h2 : detect_scenario_2_fake_face distFn df = [] := by
    simp only [detect_scenario_2_fake_face]
    rw [if_pos]
    exact lt_of_le_of_lt (List.length_filter_le _ _) hlen
  have h2b : detect_exact_duplicate_photos hashFn df = [] := by
    simp only [detect_exact_duplicate_photos]
    rw [if_pos]
    exact lt_of_le_of_lt (List.length_filter_le _ _) hlen
  have h3 : detect_address_anomalies 30 df = [] := by
    simp only [detect_address_anomalies]
    have hall : ∀ hn ∈
        firstKeys ((withHouse df).filterMap (fun r => r.house_number)),
        ¬ (decide (30 ≤ houseCount df hn) = true) := by
      intro hn _
      have hle : houseCount df hn ≤ df.length := by
        unfold houseCount withHouse
        exact le_trans (List.length_filter_le _ _) (List.length_filter_le _ _)
      simp only [decide_eq_true_eq]
      omega
    rw [List.filter_eq_nil_iff.mpr hall, List.map_nil]
  have h1 : detect_scenario_1_fake_details df = [] := by
    rcases df with - | ⟨a, - | ⟨b, t⟩⟩
    · rfl
    · rfl
    · exact absurd hlen (by simp only [List.length_cons]; omega)
  simp [detect_all_frauds, h1, h2, h2b, h3]

/-- C2 witness: a one-record run completes with zero findings. -/
theorem C2_no_structural_validation_witness :
    detect_all_frauds (fun _ _ => 1) (fun _ => none) [c1wA] = [] :=
  C2_no_structural_validation _ _ _ (by decide)

/- ## C8: the finding aggregator -/

/-- C8: `detect_all_frauds` is the concatenation of the four matchers'
outputs in the fixed order FAKE_DETAILS, FAKE_FACE, DUPLICATE_PHOTO,
ADDRESS_ANOMALY, with no cross-matcher deduplication: every scenario-1
finding and every scenario-2 finding of the same record pair both appear
in the merged output, and they are distinct elements (distinct tags). -/
theorem C8_aggregator_order (distFn : Nat → Nat → ℚ)
    (hashFn : String → Option (List Bool)) (df : List VoterRecord) :
    (detect_all_frauds distFn hashFn df =
      (detect_scenario_1_fake_details df).map FraudFinding.details
        ++ (detect_scenario_2_fake_face distFn df).map FraudFinding.face
        ++ (detect_exact_duplicate_photos hashFn df).map FraudFinding.photo
        ++ (detect_address_anomalies 30 df).map FraudFinding.address) ∧
    (∀ fd ∈ detect_scenario_1_fake_details df,
      FraudFinding.details fd ∈ detect_all_frauds distFn hashFn df) ∧
    (∀ ff ∈ detect_scenario_2_fake_face distFn df,
      FraudFinding.face ff ∈ detect_all_frauds distFn hashFn df) ∧
    (∀ fd ff, FraudFinding.details fd ≠ FraudFinding.face ff) := by
  refine ⟨rfl, ?_, ?_, ?_⟩
  · intro fd h
    simp only [detect_all_frauds, List.mem_append, List.mem_map]
    exact Or.inl (Or.inl (Or.inl ⟨fd, h, rfl⟩))
  · intro ff h
    simp only [detect_all_frauds, List.mem_append, List.mem_map]
    exact Or.inl (Or.inl (Or.inr ⟨ff, h, rfl⟩))
  · intro fd ff
    simp

/-- First record of the corroborating pair: name A, father F, face
encoding 0. -/
def c8r1 : VoterRecord := ⟨"D1", some "A", some "F", none, none, none, some 0, none⟩

/-- Second record of the corroborating pair: same details, face
encoding 1. -/
def c8r2 : VoterRecord := ⟨"D2", some "A", some "F", none, none, none, some 1, none⟩

/-- Distance oracle for the corroborating pair: every distance 0.1
(similarity 90). -/
def c8dist : Nat → Nat → ℚ := fun _ _ => 1/10

/-- The FAKE_DETAILS finding for the corroborating pair. -/
def c8fd : FakeDetailsF :=
  ⟨"D1", "D2", "A", "F", "N/A", "N/A", "N/A", "N/A",
    "name + father/husband", "100%", "DEFINITE FRAUD"⟩

/-- The FAKE_FACE finding for the corroborating pair. -/
def c8ff : FakeFaceF :=
  ⟨"D1", "D2", "A", "A", "F", "F", 90, 85, "SAME NAME: A",
    "LIKELY FRAUD - SAME PERSON"⟩

/-- C8 witness: a pair matching on exact details and on faces appears
as two distinct findings in the merged output. -/
theorem C8_aggregator_order_witness :
    FraudFinding.details c8fd ∈
      detect_all_frauds c8dist (fun _ => none) [c8r1, c8r2] ∧
    FraudFinding.face c8ff ∈
      detect_all_frauds c8dist (fun _ => none) [c8r1, c8r2] := by
  have h1 : c8fd ∈ detect_scenario_1_fake_details [c8r1, c8r2] := by decide
  have h2 : c8ff ∈ detect_scenario_2_fake_face c8dist [c8r1, c8r2] := by
    have he : detect_scenario_2_fake_face c8dist [c8r1, c8r2] = [c8ff] := by
      norm_num [detect_scenario_2_fake_face, upperPairs, fakeFaceCheck,
        similarity_percent, pyRound, roundHalfEven, orNA, c8r1, c8r2, c8ff,
        c8dist]
      rfl
    rw [he]
    exact List.mem_singleton.mpr rfl
  exact ⟨(C8_aggregator_order c8dist (fun _ => none) [c8r1, c8r2]).2.1 c8fd h1,
    (C8_aggregator_order c8dist (fun _ => none) [c8r1, c8r2]).2.2.1 c8ff h2⟩

/- ## C9: unordered pairs reported at most once, in scan order -/

theorem fakeDetailsCheck_cards {r1 r2 : VoterRecord} {fd : FakeDetailsF}
    (h : fakeDetailsCheck r1 r2 = some fd) :
    (fd.card_1, fd.card_2) = (r1.card_id, r2.card_id) := by
  unfold fakeDetailsCheck at h
  repeat' split at h
  all_goals first
    | (obtain rfl := Option.some.inj h; rfl)
    | cases h

theorem fakeFaceCheck_cards {d : ℚ} {r1 r2 : VoterRecord} {f : FakeFaceF}
    (h : fakeFaceCheck d r1 r2 = some f) :
    (f.card_1, f.card_2) = (r1.card_id, r2.card_id) := by
  unfold fakeFaceCheck at h
  repeat' split at h
  all_goals first
    | (obtain rfl := Option.some.inj h; rfl)
    | cases h

theorem photoPairCheck_cards {e1 e2 : PhotoEntry} {f : DupPhotoF}
    (h : photoPairCheck e1 e2 = some f) :
    (f.card_1, f.card_2) = (e1.card_id, e2.card_id) := by
  simp only [photoPairCheck] at h
  split_ifs at h <;>
    (obtain rfl := Option.some.inj h; rfl)

theorem hashOne_card {hashFn : String → Option (List Bool)}
    {r : VoterRecord} {e : PhotoEntry}
    (h : hashOne hashFn r = some e) : e.card_id = r.card_id := by
  unfold hashOne at h
  cases hp : r.face_path with
  | none => rw [hp] at h; cases h
  | some p =>
    rw [hp] at h
    simp only [Option.bind] at h
    cases hq : hashFn p with
    | none => rw [hq] at h; cases h
    | some hb => rw [hq] at h; obtain rfl := Option.some.inj h; rfl

/-- C9: under the record-set invariant that card ids are unique, each of
the three pairwise matchers reports any unordered pair of cards at most
once — (A,B) and (B,A) are never both present — and every emitted
finding takes card_1 from the record encountered earlier in that
matcher's scan list and card_2 from the later one. -/
theorem C9_pairwise_at_most_once (distFn : Nat → Nat → ℚ)
    (hashFn : String → Option (List Bool)) (df : List VoterRecord)
    (hnd : (df.map (fun r => r.card_id)).Nodup) (a b : String) :
    ((detect_scenario_1_fake_details df).countP
      (fun f => cardPairMatch a b (f.card_1, f.card_2)) ≤ 1) ∧
    ((detect_scenario_2_fake_face distFn df).countP
      (fun f => cardPairMatch a b (f.card_1, f.card_2)) ≤ 1) ∧
    ((detect_exact_duplicate_photos hashFn df).countP
      (fun f => cardPairMatch a b (f.card_1, f.card_2)) ≤ 1) ∧
    (∀ f ∈ detect_scenario_1_fake_details df,
      ∃ r1 r2 l1 l2 l3, df = l1 ++ r1 :: l2 ++ r2 :: l3 ∧
        f.card_1 = r1.card_id ∧ f.card_2 = r2.card_id) ∧
    (∀ f ∈ detect_scenario_2_fake_face distFn df,
      ∃ r1 r2 l1 l2 l3,
        df.filter (fun r => r.face_encoding.isSome) =
          l1 ++ r1 :: l2 ++ r2 :: l3 ∧
        f.card_1 = r1.card_id ∧ f.card_2 = r2.card_id) ∧
    (∀ f ∈ detect_exact_duplicate_photos hashFn df,
      ∃ e1 e2 l1 l2 l3,
        (df.filter (fun r => r.face_path.isSome)).filterMap (hashOne hashFn) =
          l1 ++ e1 :: l2 ++ e2 :: l3 ∧
        f.card_1 = e1.card_id ∧ f.card_2 = e2.card_id) := by
  have hndFaces :
      ((df.filter (fun r => r.face_encoding.isSome)).map
        (fun r => r.card_id)).Nodup :=
    List.Nodup.sublist ((List.filter_sublist df).map _) hnd
  have hndHashes :
      (((df.filter (fun r => r.face_path.isSome)).filterMap
          (hashOne hashFn)).map (fun e => e.card_id)).Nodup := by
    refine List.Nodup.sublist ?_ hnd
    refine List.Sublist.trans
      (map_filterMap_sublist (hashOne hashFn) (fun (e : PhotoEntry) => e.card_id)
        (fun (r : VoterRecord) => r.card_id) _ (fun x e he => hashOne_card he)) ?_
    exact (List.filter_sublist df).map _
  refine ⟨?_, ?_, ?_, ?_, ?_, ?_⟩
  · exact scan_count_le_one (fun r => r.card_id)
      (fun f => (f.card_1, f.card_2)) fakeDetailsCheck hnd
      (fun x y f h => fakeDetailsCheck_cards h) a b
  · simp only [detect_scenario_2_fake_face]
    split_ifs
    · simp
    · refine scan_count_le_one (fun (r : VoterRecord) => r.card_id)
        (fun (f : FakeFaceF) => (f.card_1, f.card_2))
        (fun x y =>
          match x.face_encoding, y.face_encoding with
          | some e1, some e2 => fakeFaceCheck (distFn e1 e2) x y
          | _, _ => none) hndFaces ?_ a b
      intro x y f h
      have h' : (match x.face_encoding, y.face_encoding with
          | some e1, some e2 => fakeFaceCheck (distFn e1 e2) x y
          | _, _ => none) = some f := h
      split at h'
      · exact fakeFaceCheck_cards h'
      · cases h'
  · simp only [detect_exact_duplicate_photos]
    split_ifs
    · simp
    · exact scan_count_le_one (fun e => e.card_id)
        (fun f => (f.card_1, f.card_2)) photoPairCheck hndHashes
        (fun x y f h => photoPairCheck_cards h) a b
  · intro f hf
    rcases scan_mem_decomp _ hf with ⟨x, y, l1, l2, l3, hl, hck⟩
    have hc := fakeDetailsCheck_cards hck
    rw [Prod.mk.injEq] at hc
    exact ⟨x, y, l1, l2, l3, hl, hc.1, hc.2⟩
  · intro f hf
    simp only [detect_scenario_2_fake_face] at hf
    split_ifs at hf
    · cases hf
    · rcases scan_mem_decomp
        (fun (x y : VoterRecord) =>
          match x.face_encoding, y.face_encoding with
          | some e1, some e2 => fakeFaceCheck (distFn e1 e2) x y
          | _, _ => none) hf with ⟨x, y, l1, l2, l3, hl, hck⟩
      have hck' : (match x.face_encoding, y.face_encoding with
          | some e1, some e2 => fakeFaceCheck (distFn e1 e2) x y
          | _, _ => none) = some f := hck
      have hc : (f.card_1, f.card_2) = (x.card_id, y.card_id) := by
        split at hck'
        · exact fakeFaceCheck_cards hck'
        · cases hck'
      rw [Prod.mk.injEq] at hc
      exact ⟨x, y, l1, l2, l3, hl, hc.1, hc.2⟩
  · intro f hf
    simp only [detect_exact_duplicate_photos] at hf
    split_ifs at hf
    · cases hf
    · rcases scan_mem_decomp _ hf with ⟨x, y, l1, l2, l3, hl, hck⟩
      have hc := photoPairCheck_cards hck
      rw [Prod.mk.injEq] at hc
      exact ⟨x, y, l1, l2, l3, hl, hc.1, hc.2⟩

/-- C9 witness: on a concrete two-record set with distinct card ids the
scenario-1 output mentions the unordered pair (D1, D2) at most once. -/
theorem C9_pairwise_at_most_once_witness :
    (detect_scenario_1_fake_details [c8r1, c8r2]).countP
      (fun f => cardPairMatch "D1" "D2" (f.card_1, f.card_2)) ≤ 1 :=
  (C9_pairwise_at_most_once c8dist (fun _ => none) [c8r1, c8r2]
    (by decide) "D1" "D2").1
